/-
Verification of the retry / error-classification / transaction-buffer core of
mongo-tools-common against its natural-language specification.

The Go source is shallowly embedded:
* Error values flowing through the classifier (`errorutil` package) become the
  inductive type `GoError`, one constructor per Go dynamic error type that the
  classifier inspects.  Two *distinct* constructors model the two distinct Go
  struct types both named `WriteConcernError`: the one declared in package `db`
  and the one declared in package `errorutil` (a Go type assertion
  `err.(*WriteConcernError)` inside `errorutil` matches only the latter).
* `RunRetryableFunc` becomes a fuel-indexed loop over oracles: `f` (the
  operation, indexed by invocation number and the `isRetry` flag), `recover`
  (the result of `RecoverSession` at each retry), and `elapsed` (the value of
  `time.Since(start)` in nanoseconds observed at the loop-guard check with that
  index; real wall-clock time is not otherwise representable).  The outcome
  type `RetryOutcome` represents the returned Go `error`: `ok` is `nil`,
  `failed e` is an error returned unwrapped, and `gaveUp e attempts elapsed`
  is `errors.Wrapf(e, "gave up retrying after %v failed attempts which took
  %s", i+1, time.Since(start))` — the wrap is modelled structurally so that
  the attempt count and elapsed time it carries are explicit.  Alongside the
  outcome the model returns the list of `isRetry` flags passed to `f`, in
  call order.
* `RunRetryableInsert`, the create/drop/rename attempt closures and the
  applyOps batching are embedded over the same oracle style; the applyOps
  model additionally returns the list of commands issued to the destination.
-/
import Mathlib

set_option autoImplicit false

namespace MongoToolsCommon

/-! ## Error model (package errorutil, src/unnamed/part_006) -/

/-- Field content of `mongo.WriteError` (also embedded in `mongo.BulkWriteError`). -/
structure MWriteError where
  code : Int
  message : String
  deriving DecidableEq

/-- Field content of `mongo.WriteConcernError` (the driver's type). -/
structure MWriteConcernError where
  code : Int
  message : String
  deriving DecidableEq

/-- The dynamic error types inspected by the classifier in package `errorutil`.

* `commandError` is `mongo.CommandError` (code, code name, message, labels).
* `writeError` / `bulkWriteError` are `mongo.WriteError` / `mongo.BulkWriteError`.
* `writeConcernError` is the driver's `mongo.WriteConcernError`.
* `writeException` / `bulkWriteException` carry their write-error lists and
  optional write-concern error, as `mongo.WriteException` /
  `mongo.BulkWriteException` do.
* `dbWriteConcernError` is `*db.WriteConcernError` (declared in
  src/unnamed/part_004 lines 49-60), the value returned by
  `runCheckWriteConcernError` when the server response carries a
  `writeConcernError` document.
* `errutilWriteConcernError` is `*errorutil.WriteConcernError` (declared in
  src/unnamed/part_006 lines 14-25), the only type matched by the assertion
  `err.(*WriteConcernError)` inside `IsReconnectableError`.
* `netError` is any value implementing `net.Error`; `eof` / `unexpectedEOF`
  are `io.EOF` / `io.ErrUnexpectedEOF`; `simple` is a plain error whose
  `Error()` is its message; `wrappedError` is a `pkg/errors` wrap, unwound by
  `errors.Cause`. -/
inductive GoError where
  | commandError (code : Int) (codeName : String) (message : String) (labels : List String)
  | writeError (e : MWriteError)
  | bulkWriteError (e : MWriteError)
  | writeConcernError (e : MWriteConcernError)
  | writeException (writeErrors : List MWriteError) (wce : Option MWriteConcernError)
  | bulkWriteException (writeErrors : List MWriteError) (wce : Option MWriteConcernError)
  | dbWriteConcernError (code : Int) (codeName : String) (message : String)
  | errutilWriteConcernError (code : Int) (codeName : String) (message : String)
  | netError (message : String)
  | eof
  | unexpectedEOF
  | simple (message : String)
  | wrappedError (message : String) (cause : GoError)
  deriving DecidableEq

/-- Whether `needle` occurs at the start of `hay`. -/
def charsStartWith : List Char → List Char → Bool
  | [], _ => true
  | _ :: _, [] => false
  | c :: cs, d :: ds => c = d && charsStartWith cs ds

/-- Whether `needle` occurs contiguously anywhere in `hay`. -/
def charsContain (needle : List Char) : List Char → Bool
  | [] => charsStartWith needle []
  | d :: ds => charsStartWith needle (d :: ds) || charsContain needle ds

/-- `strings.Contains s sub`. -/
def strContains (s sub : String) : Bool :=
  charsContain sub.toList s.toList

/-- The `Error()` string of each error shape, as produced by the Go types.
`mongo.CommandError.Error()` is `(Name) Message`, or just `Message` when the
name is empty; both `WriteConcernError` types format
`WriteConcernError: <msg>, code: <code>[, codeName: <name>]`; a `pkg/errors`
wrap formats `<msg>: <cause>`. -/
def errString : GoError → String
  | .commandError _ codeName message _ =>
      if codeName = "" then message else "(" ++ codeName ++ ") " ++ message
  | .writeError e => e.message
  | .bulkWriteError e => e.message
  | .writeConcernError e => e.message
  | .writeException _ _ => "write exception"
  | .bulkWriteException _ _ => "bulk write exception"
  | .dbWriteConcernError code codeName message =>
      if codeName = "" then
        "WriteConcernError: " ++ message ++ ", code: " ++ toString code
      else
        "WriteConcernError: " ++ message ++ ", code: " ++ toString code ++
          ", codeName: " ++ codeName
  | .errutilWriteConcernError code codeName message =>
      if codeName = "" then
        "WriteConcernError: " ++ message ++ ", code: " ++ toString code
      else
        "WriteConcernError: " ++ message ++ ", code: " ++ toString code ++
          ", codeName: " ++ codeName
  | .netError message => message
  | .eof => "EOF"
  | .unexpectedEOF => "unexpected EOF"
  | .simple message => message
  | .wrappedError message cause => message ++ ": " ++ errString cause

/-- `errorutil.getErrorCode` (part_006 lines 159-206): a type switch returning
the first discovered numeric code, 0 by default.  Neither `db.WriteConcernError`
nor `errorutil.WriteConcernError` has a case in the switch, so both fall to the
default and yield 0. -/
def getErrorCode : GoError → Int
  | .commandError code _ _ _ => code
  | .writeError e => e.code
  | .bulkWriteError e => e.code
  | .writeConcernError e => e.code
  | .writeException writeErrors wce =>
      match writeErrors with
      | we :: _ => we.code
      | [] =>
        match wce with
        | some w => w.code
        | none => 0
  | .bulkWriteException writeErrors wce =>
      match writeErrors with
      | we :: _ => we.code
      | [] =>
        match wce with
        | some w => w.code
        | none => 0
  | _ => 0

/-- `errorutil.isNetworkError` (part_006 lines 136-157): true for `net.Error`
values, `io.EOF`, `io.ErrUnexpectedEOF`, the fixed legacy message strings, and
driver command errors labelled `NetworkError`. -/
def isNetworkError (e : GoError) : Bool :=
  match e with
  | .netError _ => true
  | .eof => true
  | .unexpectedEOF => true
  | .commandError _ _ _ labels =>
      errString e = "no reachable servers" || errString e = "Closed explicitly" ||
        errString e = "connection closed" || labels.contains "NetworkError"
  | _ =>
      errString e = "no reachable servers" || errString e = "Closed explicitly" ||
        errString e = "connection closed"

/-- `errors.Cause` from pkg/errors: follow the cause chain to the root. -/
def errorsCause : GoError → GoError
  | .wrappedError _ cause => errorsCause cause
  | e => e

/-- The fixed retryable code list of `IsReconnectableError` (part_006 line 222). -/
def reconnectableCodes : List Int :=
  [10107, 13435, 13436, 64, 6, 7, 89, 9001, 91, 189, 11600, 11601, 11602, 136]

/-- `errorutil.IsReconnectableError` (part_006 lines 208-262).  Takes the root
cause, accepts `*errorutil.WriteConcernError` by type assertion, then switches
on the extracted code (fixed list, 175, or code 0 with a "not master" message)
and finally falls back to the network-error check. -/
def isReconnectableError (e0 : GoError) : Bool :=
  let e := errorsCause e0
  match e with
  | .errutilWriteConcernError _ _ _ => true
  | _ =>
    let code := getErrorCode e
    if reconnectableCodes.contains code then true
    else if code = 175 then true
    else if code = 0 && strContains (errString e) "not master" then true
    else isNetworkError e

/-- `errorutil.isDuplicateKeyCode` (part_006 lines 39-41). -/
def isDuplicateKeyCode (code : Int) : Bool :=
  code = 11000 || code = 11001 || code = 12582

/-- `errorutil.IsDuplicateKeyError` (part_006 lines 43-63): command errors by
code, write/bulk-write exceptions by scanning their write-error lists. -/
def isDuplicateKeyError : GoError → Bool
  | .commandError code _ _ _ => isDuplicateKeyCode code
  | .writeException writeErrors _ => writeErrors.any (fun we => isDuplicateKeyCode we.code)
  | .bulkWriteException writeErrors _ => writeErrors.any (fun we => isDuplicateKeyCode we.code)
  | _ => false

/-- `IsDuplicateKeyError` applied to a Go `error` value that may be nil
(`none`): Go type assertions on a nil interface fail, so nil is not a
duplicate-key error. -/
def isDupErrOpt : Option GoError → Bool
  | none => false
  | some e => isDuplicateKeyError e

/-- Modelled from the spec: the exported `errorutil.IsNamespaceExistsError`
called by `RunRetryableCreate` is not under src (only the unexported
`isNamespaceExistsError`, part_006 lines 71-75, is); per that implementation
and the spec's namespace-exists category it is a command error with code 48. -/
def isNamespaceExistsError : GoError → Bool
  | .commandError code _ _ _ => code = 48
  | _ => false

/-- Modelled from the spec: the exported `errorutil.IsNoNamespaceError` called
by `RunRetryableDrop` / `RunRetryableRenameAndDrop` is not under src (only the
unexported `isNoNamespaceError`, part_006 lines 65-69, is); per that
implementation and the spec's namespace-missing category it is a command error
with code 26. -/
def isNoNamespaceError : GoError → Bool
  | .commandError code _ _ _ => code = 26
  | _ => false

/-! ## Retryable executor (package db, src/unnamed/part_004) -/

/-- `db.CommandRetriesLowerBound` (part_004 line 26). -/
def CommandRetriesLowerBound : Nat := 10

/-- `db.RetryDurationLowerBound` (part_004 line 28): `5 * time.Minute`, in
nanoseconds (`time.Duration`'s unit). -/
def RetryDurationLowerBound : Nat := 5 * 60 * 1000000000

/-- The Go `error` returned by `RunRetryableFunc`: `ok` is `nil`; `failed e`
is an error returned as-is (non-reconnectable operation error, or a
`RecoverSession` failure); `gaveUp e attempts elapsedNs` is the
`errors.Wrapf` wrap produced when the retry floors are exhausted, carrying the
failed-attempt count `i+1` and the elapsed time; `fuelOut` marks exhaustion of
the model's fuel (never reached under the theorems' hypotheses). -/
inductive RetryOutcome where
  | ok
  | failed (e : GoError)
  | gaveUp (e : GoError) (attempts : Nat) (elapsedNs : Nat)
  | fuelOut
  deriving DecidableEq

/-- The retry loop of `db.RunRetryableFunc` (part_004 lines 120-137), entered
with the error `e` of the last failed invocation, the loop counter `i`, and
the number `calls` of invocations of `f` so far.  `elapsed i` is
`time.Since(start)` as observed at loop-guard check `i`.  Returns the outcome
together with the `isRetry` flags passed to `f` inside the loop, in order. -/
def runRetryableLoop (f : Nat → Bool → Option GoError) (recover : Nat → Option GoError)
    (elapsed : Nat → Nat) : (fuel : Nat) → (e : GoError) → (i calls : Nat) →
    RetryOutcome × List Bool
  | 0, e, i, _ =>
    if i < CommandRetriesLowerBound ∨ elapsed i < RetryDurationLowerBound then (.fuelOut, [])
    else (.gaveUp e (i + 1) (elapsed i), [])
  | fuel + 1, e, i, calls =>
    if i < CommandRetriesLowerBound ∨ elapsed i < RetryDurationLowerBound then
      if isReconnectableError e then
        match recover i with
        | some re => (.failed re, [])
        | none =>
          match f calls true with
          | none => (.ok, [true])
          | some e' =>
            let r := runRetryableLoop f recover elapsed fuel e' (i + 1) (calls + 1)
            (r.1, true :: r.2)
      else (.failed e, [])
    else (.gaveUp e (i + 1) (elapsed i), [])

/-- `db.RunRetryableFunc` (part_004 lines 114-138): invoke `f` with
`isRetry=false`; on failure enter the retry loop.  The session argument is
abstracted into the `recover` oracle (the result of each `RecoverSession`
call).  Returns the outcome and the full list of `isRetry` flags passed to
`f`, in call order. -/
def runRetryableFunc (f : Nat → Bool → Option GoError) (recover : Nat → Option GoError)
    (elapsed : Nat → Nat) (fuel : Nat) : RetryOutcome × List Bool :=
  match f 0 false with
  | none => (.ok, [false])
  | some e =>
    let r := runRetryableLoop f recover elapsed fuel e 0 1
    (r.1, false :: r.2)

/-! ## RunRetryableInsert (part_004 lines 140-185)

The two destination-mutating calls are abstracted into oracles giving the
result of the retry-wrapped call: `many docs` is the result of
`RunRetryableFunc(... InsertMany(docs) ...)` on the batch `docs`, and `one d`
the result of `RunRetryableFunc(... InsertOne(d) ...)` on document `d`.
(Each document reaches `InsertOne` at most once, and each batch passed to
`InsertMany` is a distinct strict suffix, so oracles keyed on the argument
express every behavior the claim speaks about.) -/

/-- The inner one-at-a-time loop of `RunRetryableInsert` (part_004 lines
167-181): walk the documents, skipping duplicate-key failures; on the first
success stop and report the documents after it (the Go code then sets
`docs = docs[i:]`); if the whole list is walked, report the empty remainder;
on a non-duplicate-key error return that error. -/
def insertSingles {α : Type} (one : α → Option GoError) : List α → Except GoError (List α)
  | [] => .ok []
  | d :: rest =>
    match one d with
    | none => .ok rest
    | some e => if isDuplicateKeyError e then insertSingles one rest else .error e

theorem insertSingles_ok_length {α : Type} (one : α → Option GoError) :
    ∀ (l r : List α), insertSingles one l = .ok r → r.length ≤ l.length := by
  intro l
  induction l with
  | nil => intro r h; simp [insertSingles] at h; simp [← h]
  | cons d rest ih =>
    intro r h
    simp only [insertSingles] at h
    cases hone : one d with
    | none =>
      rw [hone] at h
      simp at h
      simp [← h, Nat.le_succ_of_le]
    | some e =>
      rw [hone] at h
      by_cases hdup : isDuplicateKeyError e
      · simp [hdup] at h
        exact Nat.le_succ_of_le (ih r h)
      · simp [hdup] at h

theorem insertSingles_cons_length {α : Type} (one : α → Option GoError)
    (d : α) (rest r : List α) (h : insertSingles one (d :: rest) = .ok r) :
    r.length < (d :: rest).length := by
  simp only [insertSingles] at h
  cases hone : one d with
  | none =>
    rw [hone] at h
    simp at h
    simp [← h, Nat.lt_succ_of_le]
  | some e =>
    rw [hone] at h
    by_cases hdup : isDuplicateKeyError e
    · simp [hdup] at h
      exact Nat.lt_succ_of_le (insertSingles_ok_length one rest r h)
    · simp [hdup] at h

/-- `db.RunRetryableInsert` (part_004 lines 140-185): batch-insert; when the
(retry-wrapped) batch insert fails with a duplicate-key error, insert one at a
time until the first success, then resume batch insertion on the remainder;
return any non-duplicate-key error; return nil once no documents remain. -/
def runRetryableInsert {α : Type} (many : List α → Option GoError) (one : α → Option GoError) :
    (docs : List α) → Option GoError
  | [] => none
  | d :: rest =>
    match many (d :: rest) with
    | none => none
    | some e =>
      if isDuplicateKeyError e then
        match h : insertSingles one (d :: rest) with
        | .error e2 => some e2
        | .ok remaining => runRetryableInsert many one remaining
      else some e
termination_by docs => docs.length
decreasing_by
  exact insertSingles_cons_length one d rest remaining h

/-! ## Create / Drop / Rename attempt closures (part_004 lines 187-237)

`cmdRes` is the oracle for the result of the inner `RunCommandWithLog` call
on invocation `n`; the closures below are the `func(isRetry bool) error`
values passed to `RunRetryableFunc`. -/

/-- The attempt closure of `db.RunRetryableCreate` (part_004 lines 190-197):
ignore a namespace-already-exists error, but only on a retry attempt. -/
def runRetryableCreateAttempt (cmdRes : Option GoError) (isRetry : Bool) : Option GoError :=
  match cmdRes with
  | none => none
  | some e => if isRetry && isNamespaceExistsError e then none else some e

/-- The attempt closure of `db.RunRetryableDrop` (part_004 lines 229-236):
ignore a namespace-not-found error, but only on a retry attempt. -/
def runRetryableDropAttempt (cmdRes : Option GoError) (isRetry : Bool) : Option GoError :=
  match cmdRes with
  | none => none
  | some e => if isRetry && isNoNamespaceError e then none else some e

/-- The attempt closure of the rename step of `db.RunRetryableRenameAndDrop`
(part_004 lines 208-215): ignore a namespace-not-found error, but only on a
retry attempt. -/
def runRetryableRenameAttempt (cmdRes : Option GoError) (isRetry : Bool) : Option GoError :=
  match cmdRes with
  | none => none
  | some e => if isRetry && isNoNamespaceError e then none else some e

/-- `db.RunRetryableCreate` over the `cmdRes` oracle: the retry loop applied
to the create attempt closure. -/
def runRetryableCreate (cmdRes : Nat → Option GoError) (recover : Nat → Option GoError)
    (elapsed : Nat → Nat) (fuel : Nat) : RetryOutcome × List Bool :=
  runRetryableFunc (fun n isRetry => runRetryableCreateAttempt (cmdRes n) isRetry)
    recover elapsed fuel

/-- `db.RunRetryableDrop` (non-`system.js` branch) over the `cmdRes` oracle. -/
def runRetryableDrop (cmdRes : Nat → Option GoError) (recover : Nat → Option GoError)
    (elapsed : Nat → Nat) (fuel : Nat) : RetryOutcome × List Bool :=
  runRetryableFunc (fun n isRetry => runRetryableDropAttempt (cmdRes n) isRetry)
    recover elapsed fuel

/-- The rename step of `db.RunRetryableRenameAndDrop` over the `cmdRes`
oracle. -/
def runRetryableRename (cmdRes : Nat → Option GoError) (recover : Nat → Option GoError)
    (elapsed : Nat → Nat) (fuel : Nat) : RetryOutcome × List Bool :=
  runRetryableFunc (fun n isRetry => runRetryableRenameAttempt (cmdRes n) isRetry)
    recover elapsed fuel

/-! ## applyOps batching (part_004 lines 532-591) -/

/-- A minimal BSON value: enough to distinguish the documents this code
builds (strings, documents, arrays). -/
inductive BsonV where
  | vstr (s : String)
  | vdoc (fields : List (String × BsonV))
  | varr (elems : List BsonV)

/-- The fields of `db.Oplog` that the applyOps batching writes: operation
kind, namespace, and object body. -/
structure OplogDoc where
  operation : String
  ns : String
  object : List (String × BsonV)

/-- `bson.Marshal` of an `Oplog`, abstracted to its field content. -/
def marshalOplog (o : OplogDoc) : BsonV :=
  .vdoc [("op", .vstr o.operation), ("ns", .vstr o.ns), ("o", .vdoc o.object)]

/-- `db.noopOplog` (part_004 line 584): the no-op entry a dummy applyOps
command carries. -/
def noopOplog : OplogDoc :=
  { operation := "n", ns := "", object := [("msg", .vstr "mongomirror noop")] }

/-- The `dummyCommand` built inside `applyOpsBatchBypassValidation` (part_004
lines 538-542): a no-op command entry appended to multi-entry batches to force
non-atomic application. -/
def dummyCommand : OplogDoc :=
  { operation := "c", ns := "noop.$cmd",
    object := [("applyOps", .varr [marshalOplog noopOplog])] }

/-- The fields of `db.ApplyOpsResponse` used by part_004 (`res.Ok`,
`res.ErrMsg`); the type's declaration itself is not under src. -/
structure ApplyOpsResponse where
  ok : Int
  errMsg : String
  deriving DecidableEq

/-- The command `applyOpsBatchBypassValidation` issues: the entry list of the
`applyOps` document, the optional `bypassDocumentValidation` flag, and the
majority write concern added by `runWithWriteConcernMajority`. -/
structure ApplyOpsCmd where
  entries : List BsonV
  bypassDocumentValidation : Bool
  writeConcernMajority : Bool

/-- `db.ErrEmptyApplyOps` (part_004 line 591). -/
def errEmptyApplyOps : GoError := .simple "cannot send an empty applyOps!"

/-- The response/error handling of `applyOpsBatchBypassValidation` after the
command has run (part_004 lines 558-575): on an error keep the response only
when it was populated (`res.ErrMsg` non-empty); on success reject an
`ok: 0` response.  The formatting of the `res.Ok == 0` error message is
abstracted. -/
def applyOpsHandleResponse (err : Option GoError) (res : ApplyOpsResponse) :
    Option ApplyOpsResponse × Option GoError :=
  match err with
  | some e => if res.errMsg = "" then (none, some e) else (some res, some e)
  | none =>
    if res.ok = 0 then (some res, some (.simple "error applying operations"))
    else (some res, none)

/-- `db.applyOpsBatchBypassValidation` (part_004 lines 532-576) over a `run`
oracle giving the destination's answer to an issued command.  Returns the
list of commands actually issued to the destination (empty or a singleton),
then the response pointer and the error, mirroring the Go return values.
`bson.Marshal` failures are abstracted (marshalling of these fixed documents
cannot fail). -/
def applyOpsBatchBypassValidation (run : ApplyOpsCmd → Option GoError × ApplyOpsResponse)
    (entries : List BsonV) (bypassValidation : Bool) :
    List ApplyOpsCmd × Option ApplyOpsResponse × Option GoError :=
  if entries.length = 0 then ([], none, some errEmptyApplyOps)
  else
    let entries2 := if entries.length > 1 then entries ++ [marshalOplog dummyCommand] else entries
    let cmd : ApplyOpsCmd :=
      { entries := entries2, bypassDocumentValidation := bypassValidation,
        writeConcernMajority := true }
    let (err, res) := run cmd
    ([cmd], applyOpsHandleResponse err res)

/-- `db.ApplyOpsBatch` (part_004 lines 587-589): bypassValidation fixed to
true. -/
def applyOpsBatch (run : ApplyOpsCmd → Option GoError × ApplyOpsResponse)
    (entries : List BsonV) : List ApplyOpsCmd × Option ApplyOpsResponse × Option GoError :=
  applyOpsBatchBypassValidation run entries true

/-! ## runCheckWriteConcernError (part_004 lines 464-490) -/

/-- `db.runCheckWriteConcernError`, at the level the claims speak about:
`cmdErr` is the error of the underlying command run, and `wce` the
`writeConcernError` document of the server response (code, codeName, errmsg)
if present.  A nil command error with a present `writeConcernError` yields a
`*db.WriteConcernError` value (part_004 lines 479-487); unmarshalling is
modelled as total (its failure paths return formatting errors unrelated to
the claims). -/
def runCheckWriteConcernError (cmdErr : Option GoError)
    (wce : Option (Int × String × String)) : Option GoError :=
  match cmdErr with
  | some e => some e
  | none =>
    match wce with
    | some (code, codeName, errmsg) => some (.dbWriteConcernError code codeName errmsg)
    | none => none

/-! ## BuildInfo.VersionAtLeast (part_004 lines 62-75) -/

/-- `db.BuildInfo.VersionAtLeast`: walk the queried components alongside the
stored `VersionArray`; running past the end of the stored array returns
false; the first differing component decides by `>=`; all components equal
returns true. -/
def versionAtLeast : (versionArray : List Int) → (version : List Int) → Bool
  | _, [] => true
  | [], _ :: _ => false
  | a :: as, v :: vs => if a ≠ v then a ≥ v else versionAtLeast as vs

/-- The comparison the claim's words describe: `VersionArray` is
componentwise-lexicographically at least the queried sequence (first
difference decides; a strict prefix is less than any proper extension). -/
def specLexAtLeastQueried : (versionArray : List Int) → (version : List Int) → Bool
  | _, [] => true
  | [], _ :: _ => false
  | a :: as, v :: vs => if a > v then true else if a < v then false else specLexAtLeastQueried as vs

/-- The version gate of `db.RunRetryableCollMod` (part_004 line 251): the
write-concern-capable path is taken exactly when
`destInfo.VersionAtLeast(3, 6, 0)`. -/
def collModUsesWriteConcern (destVersionArray : List Int) : Bool :=
  versionAtLeast destVersionArray [3, 6, 0]

/-- The version gate of `db.RunRetryableCreateIndexes` (part_004 line 331):
the extra majority-wait is skipped exactly when
`destInfo.VersionAtLeast(3, 3, 5)`. -/
def createIndexesSkipsMajorityWait (destVersionArray : List Int) : Bool :=
  versionAtLeast destVersionArray [3, 3, 5]

/-! ## Transaction buffer (package txn)

Modelled from the spec: the Buffer implementation (`NewBuffer`, `AddOp`,
`GetTxnStream`, `PurgeTxn` of package txn) is not under src — only its tests
(src/unnamed/part_002 `testBufferOps`, which purges after both commit and
abort and asserts `buffer.txns[meta.id]` is absent) are.  Per spec §3/§4.2:
the Buffer maps transaction identities (session id, transaction number) to
the ordered operations buffered so far; `purge(meta)` removes all state for
meta's identity and returns success even if the identity is already absent. -/

/-- A transaction identity: (logical session id, transaction number). -/
structure TxnID where
  lsid : Nat
  txnNumber : Int
  deriving DecidableEq

/-- Modelled from the spec: the per-entry classification fields of `txn.Meta`
that purging consults — the identity, and whether the final entry committed
or aborted (purge happens for both outcomes and uses only the identity). -/
structure TxnMeta where
  id : TxnID
  commit : Bool
  abort : Bool
  deriving DecidableEq

/-- Modelled from the spec: one in-flight transaction's buffered state — the
operations appended so far, in receipt order, and whether a final entry has
been added. -/
structure TxnState where
  ops : List BsonV
  finalized : Bool

/-- Modelled from the spec: the Buffer's identity-to-state mapping, as an
association list with unique keys. -/
abbrev TxnBuffer : Type := List (TxnID × TxnState)

/-- Lookup of an identity's buffered state (the test's `buffer.txns[meta.id]`
map access). -/
def bufferLookup : TxnBuffer → TxnID → Option TxnState
  | [], _ => none
  | (k, v) :: rest, i => if k = i then some v else bufferLookup rest i

/-- Remove every binding of an identity. -/
def bufferRemove : TxnBuffer → TxnID → TxnBuffer
  | [], _ => []
  | (k, v) :: rest, i => if k = i then bufferRemove rest i else (k, v) :: bufferRemove rest i

/-- Modelled from the spec: `txn.Buffer.AddOp` — append the op to the state
for meta's identity, creating the state on the first call. -/
def bufferAddOp (b : TxnBuffer) (meta : TxnMeta) (op : BsonV) : TxnBuffer :=
  match bufferLookup b meta.id with
  | none => b ++ [(meta.id, { ops := [op], finalized := meta.commit || meta.abort })]
  | some st =>
    bufferRemove b meta.id ++
      [(meta.id, { ops := st.ops ++ [op], finalized := meta.commit || meta.abort })]

/-- Modelled from the spec: `txn.Buffer.PurgeTxn` — remove all state for
meta's identity; succeed (return a nil error) even when the identity is
already absent. -/
def purgeTxn (b : TxnBuffer) (meta : TxnMeta) : TxnBuffer × Option GoError :=
  (bufferRemove b meta.id, none)

/-! ## Theorems -/

theorem bufferLookup_bufferRemove (b : TxnBuffer) (i : TxnID) :
    bufferLookup (bufferRemove b i) i = none := by
  induction b with
  | nil => rfl
  | cons kv rest ih =>
    obtain ⟨k, v⟩ := kv
    by_cases hk : k = i
    · simp [bufferRemove, hk, ih]
    · simp [bufferRemove, bufferLookup, hk, ih]

theorem bufferRemove_absent (b : TxnBuffer) (i : TxnID)
    (h : bufferLookup b i = none) : bufferRemove b i = b := by
  induction b with
  | nil => rfl
  | cons kv rest ih =>
    obtain ⟨k, v⟩ := kv
    by_cases hk : k = i
    · simp [bufferLookup, hk] at h
    · simp [bufferLookup, hk] at h
      simp [bufferRemove, hk, ih h]

/-- C8: purging a transaction identity removes all buffered state for it (no
lookup for that identity succeeds afterwards) and reports success; the purge
depends only on the identity, so commit and abort outcomes behave alike; and
purging an identity that is absent from the buffer is a no-op that also
reports success. -/
theorem c8_purge_removes_all_state (b : TxnBuffer) (meta : TxnMeta) :
    bufferLookup (purgeTxn b meta).1 meta.id = none ∧
    (purgeTxn b meta).2 = none ∧
    (∀ i : TxnID, purgeTxn b { id := i, commit := true, abort := false } =
      purgeTxn b { id := i, commit := false, abort := true }) ∧
    (bufferLookup b meta.id = none → (purgeTxn b meta).1 = b ∧ (purgeTxn b meta).2 = none) := by
  refine ⟨bufferLookup_bufferRemove b meta.id, rfl, fun i => rfl, fun h => ⟨?_, rfl⟩⟩
  exact bufferRemove_absent b meta.id h

/-- C8 witness: purging an absent identity from a concrete one-entry buffer
leaves the buffer unchanged, reports success, and lookups for the purged
identity fail. -/
theorem c8_purge_removes_all_state_witness :
    bufferLookup (purgeTxn [(⟨1, 1⟩, ⟨[], true⟩)] ⟨⟨2, 2⟩, true, false⟩).1 ⟨2, 2⟩ = none ∧
    (purgeTxn [(⟨1, 1⟩, ⟨[], true⟩)] ⟨⟨2, 2⟩, true, false⟩).2 = none ∧
    (purgeTxn [(⟨1, 1⟩, ⟨[], true⟩)] ⟨⟨2, 2⟩, true, false⟩).1 = [(⟨1, 1⟩, ⟨[], true⟩)] :=
  ⟨(c8_purge_removes_all_state [(⟨1, 1⟩, ⟨[], true⟩)] ⟨⟨2, 2⟩, true, false⟩).1,
   (c8_purge_removes_all_state [(⟨1, 1⟩, ⟨[], true⟩)] ⟨⟨2, 2⟩, true, false⟩).2.1,
   ((c8_purge_removes_all_state [(⟨1, 1⟩, ⟨[], true⟩)] ⟨⟨2, 2⟩, true, false⟩).2.2.2 rfl).1⟩

/-- C9: applying an empty batch of oplog entries through
`applyOpsBatchBypassValidation` (and its `ApplyOpsBatch` wrapper) returns
`ErrEmptyApplyOps` without issuing any command to the destination (the issued
command trace is empty). -/
theorem c9_empty_applyops (run : ApplyOpsCmd → Option GoError × ApplyOpsResponse)
    (bypassValidation : Bool) :
    applyOpsBatchBypassValidation run [] bypassValidation = ([], none, some errEmptyApplyOps) ∧
    applyOpsBatch run [] = ([], none, some errEmptyApplyOps) :=
  ⟨rfl, rfl⟩

/-- C6: a batch of more than one oplog entry is sent as a single applyOps
command whose entry list is the batch followed by exactly one synthetic no-op
dummy command entry; a single-entry batch is sent alone, with no dummy
appended. -/
theorem c6_dummy_appended_iff_multi (run : ApplyOpsCmd → Option GoError × ApplyOpsResponse)
    (entries : List BsonV) (bypassValidation : Bool) :
    (1 < entries.length →
      (applyOpsBatchBypassValidation run entries bypassValidation).1 =
        [{ entries := entries ++ [marshalOplog dummyCommand],
           bypassDocumentValidation := bypassValidation, writeConcernMajority := true }]) ∧
    (entries.length = 1 →
      (applyOpsBatchBypassValidation run entries bypassValidation).1 =
        [{ entries := entries,
           bypassDocumentValidation := bypassValidation, writeConcernMajority := true }]) := by
  constructor
  · intro hlen
    have hne : ¬entries.length = 0 := by omega
    simp only [applyOpsBatchBypassValidation, if_neg hne, if_pos hlen]
  · intro hlen
    have hne : ¬entries.length = 0 := by omega
    have hnlt : ¬1 < entries.length := by omega
    simp only [applyOpsBatchBypassValidation, if_neg hne, if_neg hnlt]

/-- C6 witness: a concrete two-entry batch is issued with the dummy appended,
and a concrete one-entry batch is issued alone. -/
theorem c6_dummy_appended_iff_multi_witness :
    (applyOpsBatchBypassValidation (fun _ => (none, ⟨1, ""⟩)) [.vstr "a", .vstr "b"] false).1 =
      [{ entries := [.vstr "a", .vstr "b"] ++ [marshalOplog dummyCommand],
         bypassDocumentValidation := false, writeConcernMajority := true }] ∧
    (applyOpsBatchBypassValidation (fun _ => (none, ⟨1, ""⟩)) [.vstr "a"] false).1 =
      [{ entries := [.vstr "a"],
         bypassDocumentValidation := false, writeConcernMajority := true }] :=
  ⟨(c6_dummy_appended_iff_multi (fun _ => (none, ⟨1, ""⟩)) [.vstr "a", .vstr "b"] false).1
      (by decide),
   (c6_dummy_appended_iff_multi (fun _ => (none, ⟨1, ""⟩)) [.vstr "a"] false).2 rfl⟩

/-- C3: the claim that every write-concern error returned by
`runCheckWriteConcernError` classifies as reconnectable fails on the code.
`runCheckWriteConcernError` returns a `*db.WriteConcernError`, while
`IsReconnectableError`'s type assertion matches only
`*errorutil.WriteConcernError` — a different Go type — and `getErrorCode`'s
type switch has no case for db's type either, so the classifier returns
false for it (third conjunct: the classifier does return true for
errorutil's own type, matching the code's comment "All w:majority write
concern errors are retryable", which shows the intent the db type misses). -/
theorem c3_db_write_concern_error_not_reconnectable :
    runCheckWriteConcernError none
        (some (64, "WriteConcernFailed", "waiting for replication timed out")) =
      some (.dbWriteConcernError 64 "WriteConcernFailed" "waiting for replication timed out") ∧
    isReconnectableError
        (.dbWriteConcernError 64 "WriteConcernFailed" "waiting for replication timed out") =
      false ∧
    isReconnectableError
        (.errutilWriteConcernError 64 "WriteConcernFailed" "waiting for replication timed out") =
      true := by
  refine ⟨rfl, ?_, rfl⟩
  decide

/-- C4: a write exception whose write-error list contains an entry with code
11000 classifies as duplicate-key; a command error with code 10107 classifies
as reconnectable; and an error whose extracted code (at the root cause, where
the classifier reads it) is 0 with a message containing "not master"
classifies as reconnectable. -/
theorem c4_classifier_fixed_codes :
    (∀ (writeErrors : List MWriteError) (wce : Option MWriteConcernError),
      (∃ we ∈ writeErrors, we.code = 11000) →
      isDuplicateKeyError (.writeException writeErrors wce) = true) ∧
    (∀ (codeName message : String) (labels : List String),
      isReconnectableError (.commandError 10107 codeName message labels) = true) ∧
    (∀ e : GoError, getErrorCode (errorsCause e) = 0 →
      strContains (errString (errorsCause e)) "not master" = true →
      isReconnectableError e = true) := by
  refine ⟨?_, fun _ _ _ => rfl, ?_⟩
  · rintro writeErrors wce ⟨we, hmem, hcode⟩
    simp only [isDuplicateKeyError, List.any_eq_true]
    exact ⟨we, hmem, by simp [isDuplicateKeyCode, hcode]⟩
  · intro e hcode hmsg
    unfold isReconnectableError
    generalize hgen : errorsCause e = ec at hcode hmsg ⊢
    cases ec <;> simp_all [reconnectableCodes]

/-- C4 witness: a concrete write exception with a code-11000 write error, a
concrete code-10107 command error, and a concrete code-0 "not master" error
classify as the claim states. -/
theorem c4_classifier_fixed_codes_witness :
    isDuplicateKeyError (.writeException [⟨11000, "dup"⟩] none) = true ∧
    isReconnectableError (.commandError 10107 "NotMaster" "node is down" []) = true ∧
    isReconnectableError (.simple "server reports: not master") = true :=
  ⟨c4_classifier_fixed_codes.1 [⟨11000, "dup"⟩] none ⟨⟨11000, "dup"⟩, by simp, rfl⟩,
   c4_classifier_fixed_codes.2.1 "NotMaster" "node is down" [],
   c4_classifier_fixed_codes.2.2 (.simple "server reports: not master") rfl (by decide)⟩

theorem versionAtLeast_eq_spec :
    ∀ (va version : List Int), versionAtLeast va version = specLexAtLeastQueried va version := by
  intro va
  induction va with
  | nil => intro version; cases version <;> rfl
  | cons a as ih =>
    intro version
    cases version with
    | nil => rfl
    | cons v vs =>
      simp only [versionAtLeast, specLexAtLeastQueried]
      split_ifs with h1 h2 h3 <;>
        first
          | exact ih vs
          | (simp only [decide_eq_true_eq, decide_eq_false_iff_not, not_le]; omega)
          | (exfalso; omega)

/-- C10: `VersionAtLeast` returns false whenever the queried sequence is
longer than the stored `VersionArray` and the compared prefix is equal (even
when every extra queried component is zero, e.g. `[3,6]` against `(3,6,0)`);
otherwise it returns true exactly when the stored array is
componentwise-lexicographically at least the queried sequence.  The last two
conjuncts evaluate the version gates this affects: a `[3,6]` destination is
routed to the no-write-concern `collMod` path and a `[3,3]` destination to
the extra majority wait in `createIndexes`. -/
theorem c10_versionAtLeast_prefix_edge (va version : List Int) :
    (va.length < version.length → version.take va.length = va →
      versionAtLeast va version = false) ∧
    (¬(va.length < version.length ∧ version.take va.length = va) →
      (versionAtLeast va version = true ↔ specLexAtLeastQueried va version = true)) ∧
    collModUsesWriteConcern [3, 6] = false ∧
    createIndexesSkipsMajorityWait [3, 3] = false := by
  refine ⟨?_, fun _ => by rw [versionAtLeast_eq_spec], by decide, by decide⟩
  induction va generalizing version with
  | nil =>
    intro hlen htake
    cases version with
    | nil => simp at hlen
    | cons v vs => rfl
  | cons a as ih =>
    intro hlen htake
    cases version with
    | nil => simp at hlen
    | cons v vs =>
      simp only [List.length_cons, List.take_succ_cons, List.cons.injEq] at hlen htake
      obtain ⟨hv, htake'⟩ := htake
      subst hv
      simpa [versionAtLeast] using ih vs (by omega) htake'

/-- C10 witness: the concrete edge case from the claim — stored version
array `[3,6]` queried with `(3,6,0)` yields false. -/
theorem c10_versionAtLeast_prefix_edge_witness :
    versionAtLeast [3, 6] [3, 6, 0] = false :=
  (c10_versionAtLeast_prefix_edge [3, 6] [3, 6, 0]).1 (by decide) (by decide)

theorem runRetryableLoop_to_success
    (f : Nat → Bool → Option GoError) (recover : Nat → Option GoError)
    (elapsed : Nat → Nat) (gErr : Nat → GoError) (K : Nat)
    (hK : K < CommandRetriesLowerBound)
    (hfail : ∀ n b, n < K → f n b = some (gErr n))
    (hrec : ∀ n, n < K → isReconnectableError (gErr n) = true)
    (hsucc : ∀ b, f K b = none)
    (hrecover : ∀ i, recover i = none) :
    ∀ (d i fuel : Nat), i + d + 1 = K → d + 1 ≤ fuel →
      runRetryableLoop f recover elapsed fuel (gErr i) i (i + 1) =
        (.ok, List.replicate (d + 1) true) := by
  intro d
  induction d with
  | zero =>
    intro i fuel hiK hfuel
    obtain ⟨fuel', rfl⟩ : ∃ fuel'', fuel = fuel'' + 1 := ⟨fuel - 1, by omega⟩
    have hi : i < K := by omega
    have hguard : i < CommandRetriesLowerBound ∨ elapsed i < RetryDurationLowerBound :=
      Or.inl (by omega)
    have h1 : isReconnectableError (gErr i) = true := hrec i hi
    have h2 : recover i = none := hrecover i
    have h3 : f (i + 1) true = none := by
      have : i + 1 = K := by omega
      rw [this]; exact hsucc true
    simp [runRetryableLoop, hguard, h1, h2, h3]
  | succ d ih =>
    intro i fuel hiK hfuel
    obtain ⟨fuel', rfl⟩ : ∃ fuel'', fuel = fuel'' + 1 := ⟨fuel - 1, by omega⟩
    have hi : i < K := by omega
    have hguard : i < CommandRetriesLowerBound ∨ elapsed i < RetryDurationLowerBound :=
      Or.inl (by omega)
    have h1 : isReconnectableError (gErr i) = true := hrec i hi
    have h2 : recover i = none := hrecover i
    have h3 : f (i + 1) true = some (gErr (i + 1)) := hfail (i + 1) true (by omega)
    have h4 := ih (i + 1) fuel' (by omega) (by omega)
    simp [runRetryableLoop, hguard, h1, h2, h3, h4, List.replicate_succ]

/-- C2: for an operation that fails with a reconnectable error on exactly its
first K invocations (K below the minimum attempt floor of 10) and succeeds on
the next, with session recovery succeeding each time, `RunRetryableFunc`
returns nil, the operation is invoked exactly K+1 times (the flag-trace has
K+1 entries), and `isRetry` is false on the first invocation and true on all
subsequent ones. -/
theorem c2_retry_eventual_success
    (f : Nat → Bool → Option GoError) (recover : Nat → Option GoError)
    (elapsed : Nat → Nat) (gErr : Nat → GoError) (K fuel : Nat)
    (hK : K < CommandRetriesLowerBound)
    (hfail : ∀ n b, n < K → f n b = some (gErr n))
    (hrec : ∀ n, n < K → isReconnectableError (gErr n) = true)
    (hsucc : ∀ b, f K b = none)
    (hrecover : ∀ i, recover i = none)
    (hfuel : K ≤ fuel) :
    runRetryableFunc f recover elapsed fuel = (.ok, false :: List.replicate K true) := by
  cases K with
  | zero =>
    have h0 : f 0 false = none := hsucc false
    simp [runRetryableFunc, h0]
  | succ K' =>
    have h0 : f 0 false = some (gErr 0) := hfail 0 false (by omega)
    have hloop := runRetryableLoop_to_success f recover elapsed gErr (K' + 1) hK hfail hrec
      hsucc hrecover K' 0 fuel (by omega) (by omega)
    simp only [Nat.zero_add] at hloop
    simp [runRetryableFunc, h0, hloop]

/-- C2 witness: an operation failing with a reconnectable network error on
its first 3 invocations and succeeding on the 4th, with recovery always
succeeding, yields nil after exactly 4 invocations, retry-flagged
false-true-true-true. -/
theorem c2_retry_eventual_success_witness :
    runRetryableFunc (fun n _ => if n < 3 then some (.netError "connection reset") else none)
        (fun _ => none) (fun _ => 0) 3 =
      (.ok, false :: List.replicate 3 true) :=
  c2_retry_eventual_success
    (fun n _ => if n < 3 then some (.netError "connection reset") else none)
    (fun _ => none) (fun _ => 0) (fun _ => .netError "connection reset") 3 3
    (by decide) (fun n b hn => by simp [hn]) (fun n _ => rfl)
    (fun b => rfl) (fun _ => rfl) (by decide)

theorem runRetryableLoop_to_exhaustion
    (f : Nat → Bool → Option GoError) (recover : Nat → Option GoError)
    (elapsed : Nat → Nat) (gErr : Nat → GoError) (M : Nat)
    (hfail : ∀ n b, f n b = some (gErr n))
    (hrec : ∀ n, isReconnectableError (gErr n) = true)
    (hrecover : ∀ i, recover i = none)
    (hM10 : CommandRetriesLowerBound ≤ M)
    (hMD : RetryDurationLowerBound ≤ elapsed M)
    (hMin : ∀ j, j < M → j < CommandRetriesLowerBound ∨ elapsed j < RetryDurationLowerBound) :
    ∀ (d i fuel : Nat), i + d = M → d ≤ fuel →
      runRetryableLoop f recover elapsed fuel (gErr i) i (i + 1) =
        (.gaveUp (gErr M) (M + 1) (elapsed M), List.replicate d true) := by
  intro d
  induction d with
  | zero =>
    intro i fuel hiM _
    have hi : i = M := by omega
    subst hi
    have hguard : ¬(i < CommandRetriesLowerBound ∨ elapsed i < RetryDurationLowerBound) := by
      push_neg
      exact ⟨by omega, by omega⟩
    cases fuel <;> simp [runRetryableLoop, hguard]
  | succ d ih =>
    intro i fuel hiM hfuel
    obtain ⟨fuel', rfl⟩ : ∃ fuel'', fuel = fuel'' + 1 := ⟨fuel - 1, by omega⟩
    have hi : i < M := by omega
    have hguard : i < CommandRetriesLowerBound ∨ elapsed i < RetryDurationLowerBound := hMin i hi
    have h1 : isReconnectableError (gErr i) = true := hrec i
    have h2 : recover i = none := hrecover i
    have h3 : f (i + 1) true = some (gErr (i + 1)) := hfail (i + 1) true
    have h4 := ih (i + 1) fuel' (by omega) (by omega)
    simp [runRetryableLoop, hguard, h1, h2, h3, h4, List.replicate_succ]

/-- C1: for an operation that always fails with a reconnectable error, with
session recovery succeeding each time, `RunRetryableFunc` returns the wrapped
(gave-up) error, and does so exactly at the first guard check M at which both
the minimum attempt floor (CommandRetriesLowerBound = 10) and the minimum
elapsed-duration floor (RetryDurationLowerBound = 5 minutes) are satisfied;
the wrapped error carries the attempt count M+1 and the elapsed time, and the
single returned value wraps only the final attempt's error — no intermediate
attempt's error is returned separately (the outcome is never `failed`). -/
theorem c1_retry_exhaustion
    (f : Nat → Bool → Option GoError) (recover : Nat → Option GoError)
    (elapsed : Nat → Nat) (gErr : Nat → GoError) (M fuel : Nat)
    (hfail : ∀ n b, f n b = some (gErr n))
    (hrec : ∀ n, isReconnectableError (gErr n) = true)
    (hrecover : ∀ i, recover i = none)
    (hM10 : CommandRetriesLowerBound ≤ M)
    (hMD : RetryDurationLowerBound ≤ elapsed M)
    (hMin : ∀ j, j < M → j < CommandRetriesLowerBound ∨ elapsed j < RetryDurationLowerBound)
    (hfuel : M ≤ fuel) :
    runRetryableFunc f recover elapsed fuel =
      (.gaveUp (gErr M) (M + 1) (elapsed M), false :: List.replicate M true) := by
  have h0 : f 0 false = some (gErr 0) := hfail 0 false
  have hloop := runRetryableLoop_to_exhaustion f recover elapsed gErr M hfail hrec hrecover
    hM10 hMD hMin M 0 fuel (by omega) hfuel
  simp only [Nat.zero_add] at hloop
  simp [runRetryableFunc, h0, hloop]

/-- C1 witness: an operation that always fails with a code-10107 (NotMaster)
command error, with recovery succeeding and 40 seconds elapsing per guard
check, is given up at guard check 10 (the first with at least 10 attempts and
at least 5 minutes elapsed), wrapping the final error with 11 failed attempts
and 400 seconds elapsed, after invocations flagged false then 10 times true. -/
theorem c1_retry_exhaustion_witness :
    runRetryableFunc (fun _ _ => some (.commandError 10107 "NotMaster" "node is not master" []))
        (fun _ => none) (fun i => i * 40000000000) 10 =
      (.gaveUp (.commandError 10107 "NotMaster" "node is not master" []) 11 400000000000,
        false :: List.replicate 10 true) :=
  c1_retry_exhaustion
    (fun _ _ => some (.commandError 10107 "NotMaster" "node is not master" []))
    (fun _ => none) (fun i => i * 40000000000)
    (fun _ => .commandError 10107 "NotMaster" "node is not master" []) 10 10
    (fun _ _ => rfl) (fun _ => rfl) (fun _ => rfl)
    (by decide) (by decide) (fun j hj => Or.inl hj) (by decide)

theorem runRetryableFunc_retry_then_ok
    (f : Nat → Bool → Option GoError) (recover : Nat → Option GoError)
    (elapsed : Nat → Nat) (fuel : Nat) (e1 : GoError)
    (h0 : f 0 false = some e1) (h1 : isReconnectableError e1 = true)
    (h2 : recover 0 = none) (h3 : f 1 true = none) (hfuel : 1 ≤ fuel) :
    runRetryableFunc f recover elapsed fuel = (.ok, [false, true]) := by
  obtain ⟨fuel', rfl⟩ : ∃ fuel'', fuel = fuel'' + 1 := ⟨fuel - 1, by omega⟩
  have hguard : (0 : Nat) < CommandRetriesLowerBound ∨ elapsed 0 < RetryDurationLowerBound :=
    Or.inl (by decide)
  simp [runRetryableFunc, runRetryableLoop, h0, h1, h2, h3, hguard]

theorem runRetryableFunc_nonreconnectable
    (f : Nat → Bool → Option GoError) (recover : Nat → Option GoError)
    (elapsed : Nat → Nat) (fuel : Nat) (e : GoError)
    (h0 : f 0 false = some e) (h1 : isReconnectableError e = false) (hfuel : 1 ≤ fuel) :
    runRetryableFunc f recover elapsed fuel = (.failed e, [false]) := by
  obtain ⟨fuel', rfl⟩ : ∃ fuel'', fuel = fuel'' + 1 := ⟨fuel - 1, by omega⟩
  have hguard : (0 : Nat) < CommandRetriesLowerBound ∨ elapsed 0 < RetryDurationLowerBound :=
    Or.inl (by decide)
  simp [runRetryableFunc, runRetryableLoop, h0, h1, hguard]

/-- C7: for create, drop, and rename run through the retry loop: an attempt
with isRetry=true that fails with a namespace-already-exists error (create)
or namespace-not-found error (drop, rename) is treated as success — both at
the attempt-closure level and end-to-end through the loop after a
reconnectable initial failure; on the initial attempt (isRetry=false) those
same errors are returned as failures, and (being non-reconnectable) the
whole operation then fails with them. -/
theorem c7_namespace_errors_ignored_on_retry :
    (∀ e : GoError, isNamespaceExistsError e = true →
      runRetryableCreateAttempt (some e) true = none) ∧
    (∀ e : GoError, runRetryableCreateAttempt (some e) false = some e) ∧
    (∀ e : GoError, isNoNamespaceError e = true →
      runRetryableDropAttempt (some e) true = none) ∧
    (∀ e : GoError, runRetryableDropAttempt (some e) false = some e) ∧
    (∀ e : GoError, isNoNamespaceError e = true →
      runRetryableRenameAttempt (some e) true = none) ∧
    (∀ e : GoError, runRetryableRenameAttempt (some e) false = some e) ∧
    (∀ (cmdRes recover : Nat → Option GoError) (elapsed : Nat → Nat) (fuel : Nat)
        (e1 e2 : GoError), cmdRes 0 = some e1 → isReconnectableError e1 = true →
      recover 0 = none → cmdRes 1 = some e2 → isNamespaceExistsError e2 = true → 1 ≤ fuel →
      runRetryableCreate cmdRes recover elapsed fuel = (.ok, [false, true])) ∧
    (∀ (cmdRes recover : Nat → Option GoError) (elapsed : Nat → Nat) (fuel : Nat)
        (e1 e2 : GoError), cmdRes 0 = some e1 → isReconnectableError e1 = true →
      recover 0 = none → cmdRes 1 = some e2 → isNoNamespaceError e2 = true → 1 ≤ fuel →
      runRetryableDrop cmdRes recover elapsed fuel = (.ok, [false, true])) ∧
    (∀ (cmdRes recover : Nat → Option GoError) (elapsed : Nat → Nat) (fuel : Nat)
        (e1 e2 : GoError), cmdRes 0 = some e1 → isReconnectableError e1 = true →
      recover 0 = none → cmdRes 1 = some e2 → isNoNamespaceError e2 = true → 1 ≤ fuel →
      runRetryableRename cmdRes recover elapsed fuel = (.ok, [false, true])) ∧
    (∀ (cmdRes recover : Nat → Option GoError) (elapsed : Nat → Nat) (fuel : Nat)
        (e : GoError), cmdRes 0 = some e → isNamespaceExistsError e = true →
      isReconnectableError e = false → 1 ≤ fuel →
      runRetryableCreate cmdRes recover elapsed fuel = (.failed e, [false])) ∧
    (∀ (cmdRes recover : Nat → Option GoError) (elapsed : Nat → Nat) (fuel : Nat)
        (e : GoError), cmdRes 0 = some e → isNoNamespaceError e = true →
      isReconnectableError e = false → 1 ≤ fuel →
      runRetryableDrop cmdRes recover elapsed fuel = (.failed e, [false])) ∧
    (∀ (cmdRes recover : Nat → Option GoError) (elapsed : Nat → Nat) (fuel : Nat)
        (e : GoError), cmdRes 0 = some e → isNoNamespaceError e = true →
      isReconnectableError e = false → 1 ≤ fuel →
      runRetryableRename cmdRes recover elapsed fuel = (.failed e, [false])) := by
  refine ⟨fun e he => by simp [runRetryableCreateAttempt, he], fun e => rfl,
    fun e he => by simp [runRetryableDropAttempt, he], fun e => rfl,
    fun e he => by simp [runRetryableRenameAttempt, he], fun e => rfl,
    ?_, ?_, ?_, ?_, ?_, ?_⟩
  · intro cmdRes recover elapsed fuel e1 e2 hc0 hrec1 hrecover hc1 hns hfuel
    refine runRetryableFunc_retry_then_ok _ recover elapsed fuel e1 ?_ hrec1 hrecover ?_ hfuel
    · rw [hc0]; rfl
    · rw [hc1]; simp [runRetryableCreateAttempt, hns]
  · intro cmdRes recover elapsed fuel e1 e2 hc0 hrec1 hrecover hc1 hns hfuel
    refine runRetryableFunc_retry_then_ok _ recover elapsed fuel e1 ?_ hrec1 hrecover ?_ hfuel
    · rw [hc0]; rfl
    · rw [hc1]; simp [runRetryableDropAttempt, hns]
  · intro cmdRes recover elapsed fuel e1 e2 hc0 hrec1 hrecover hc1 hns hfuel
    refine runRetryableFunc_retry_then_ok _ recover elapsed fuel e1 ?_ hrec1 hrecover ?_ hfuel
    · rw [hc0]; rfl
    · rw [hc1]; simp [runRetryableRenameAttempt, hns]
  · intro cmdRes recover elapsed fuel e hc0 _ hnr hfuel
    refine runRetryableFunc_nonreconnectable _ recover elapsed fuel e ?_ hnr hfuel
    rw [hc0]; rfl
  · intro cmdRes recover elapsed fuel e hc0 _ hnr hfuel
    refine runRetryableFunc_nonreconnectable _ recover elapsed fuel e ?_ hnr hfuel
    rw [hc0]; rfl
  · intro cmdRes recover elapsed fuel e hc0 _ hnr hfuel
    refine runRetryableFunc_nonreconnectable _ recover elapsed fuel e ?_ hnr hfuel
    rw [hc0]; rfl

/-- C7 witness: with a concrete code-48 NamespaceExists command error, the
create attempt closure succeeds on a retry and fails on the initial attempt;
a create whose command fails reconnectably then hits NamespaceExists on the
retry returns ok, and a create hitting NamespaceExists on the initial attempt
fails with that error. -/
theorem c7_namespace_errors_ignored_on_retry_witness :
    runRetryableCreateAttempt (some (.commandError 48 "NamespaceExists" "already exists" []))
        true = none ∧
    runRetryableCreateAttempt (some (.commandError 48 "NamespaceExists" "already exists" []))
        false = some (.commandError 48 "NamespaceExists" "already exists" []) ∧
    runRetryableCreate
        (fun n => if n = 0 then some (.netError "connection reset")
          else some (.commandError 48 "NamespaceExists" "already exists" []))
        (fun _ => none) (fun _ => 0) 1 = (.ok, [false, true]) ∧
    runRetryableCreate (fun _ => some (.commandError 48 "NamespaceExists" "already exists" []))
        (fun _ => none) (fun _ => 0) 1 =
      (.failed (.commandError 48 "NamespaceExists" "already exists" []), [false]) :=
  ⟨c7_namespace_errors_ignored_on_retry.1 _ rfl,
   c7_namespace_errors_ignored_on_retry.2.1 _,
   c7_namespace_errors_ignored_on_retry.2.2.2.2.2.2.1
     (fun n => if n = 0 then some (.netError "connection reset")
       else some (.commandError 48 "NamespaceExists" "already exists" []))
     (fun _ => none) (fun _ => 0) 1 (.netError "connection reset")
     (.commandError 48 "NamespaceExists" "already exists" [])
     rfl rfl rfl rfl rfl (by decide),
   c7_namespace_errors_ignored_on_retry.2.2.2.2.2.2.2.2.2.1
     (fun _ => some (.commandError 48 "NamespaceExists" "already exists" []))
     (fun _ => none) (fun _ => 0) 1 (.commandError 48 "NamespaceExists" "already exists" [])
     rfl rfl (by decide) (by decide)⟩

theorem runRetryableInsert_nil {α : Type} (many : List α → Option GoError)
    (one : α → Option GoError) : runRetryableInsert many one ([] : List α) = none := by
  rw [runRetryableInsert]

theorem runRetryableInsert_cons_none {α : Type} (many : List α → Option GoError)
    (one : α → Option GoError) (d : α) (rest : List α)
    (hmm : many (d :: rest) = none) : runRetryableInsert many one (d :: rest) = none := by
  rw [runRetryableInsert, hmm]

theorem runRetryableInsert_cons_notdup {α : Type} (many : List α → Option GoError)
    (one : α → Option GoError) (d : α) (rest : List α) (e : GoError)
    (hmm : many (d :: rest) = some e) (hdup : isDuplicateKeyError e = false) :
    runRetryableInsert many one (d :: rest) = some e := by
  rw [runRetryableInsert, hmm]
  simp [hdup]

theorem runRetryableInsert_cons_dup_ok {α : Type} (many : List α → Option GoError)
    (one : α → Option GoError) (d : α) (rest r : List α) (e : GoError)
    (hmm : many (d :: rest) = some e) (hdup : isDuplicateKeyError e = true)
    (hs : insertSingles one (d :: rest) = .ok r) :
    runRetryableInsert many one (d :: rest) = runRetryableInsert many one r := by
  rw [runRetryableInsert, hmm]
  dsimp only
  rw [if_pos hdup]
  split
  · next e2 heq => rw [hs] at heq; cases heq
  · next rem heq => rw [hs] at heq; injection heq with h2; rw [h2]

theorem runRetryableInsert_cons_dup_error {α : Type} (many : List α → Option GoError)
    (one : α → Option GoError) (d : α) (rest : List α) (e e2 : GoError)
    (hmm : many (d :: rest) = some e) (hdup : isDuplicateKeyError e = true)
    (hs : insertSingles one (d :: rest) = .error e2) :
    runRetryableInsert many one (d :: rest) = some e2 := by
  rw [runRetryableInsert, hmm]
  dsimp only
  rw [if_pos hdup]
  split
  · next e3 heq => rw [hs] at heq; injection heq with h2; rw [h2]
  · next rem heq => rw [hs] at heq; cases heq

theorem insertSingles_skip_to_success {α : Type} (one : α → Option GoError) :
    ∀ (pre : List α) (d : α) (post : List α),
      (∀ x ∈ pre, isDupErrOpt (one x) = true) → one d = none →
      insertSingles one (pre ++ d :: post) = .ok post := by
  intro pre
  induction pre with
  | nil => intro d post _ hd; simp [insertSingles, hd]
  | cons x pre ih =>
    intro d post hdup hd
    have hx : isDupErrOpt (one x) = true := hdup x (by simp)
    cases hox : one x with
    | none => rw [hox] at hx; simp [isDupErrOpt] at hx
    | some ex =>
      rw [hox] at hx
      simp only [isDupErrOpt] at hx
      simp only [List.cons_append, insertSingles, hox, hx, if_true]
      exact ih d post (fun y hy => hdup y (by simp [hy])) hd

theorem insertSingles_skip_to_error {α : Type} (one : α → Option GoError) :
    ∀ (pre : List α) (d : α) (post : List α) (e2 : GoError),
      (∀ x ∈ pre, isDupErrOpt (one x) = true) → one d = some e2 →
      isDuplicateKeyError e2 = false →
      insertSingles one (pre ++ d :: post) = .error e2 := by
  intro pre
  induction pre with
  | nil => intro d post e2 _ hd hnd; simp [insertSingles, hd, hnd]
  | cons x pre ih =>
    intro d post e2 hdup hd hnd
    have hx : isDupErrOpt (one x) = true := hdup x (by simp)
    cases hox : one x with
    | none => rw [hox] at hx; simp [isDupErrOpt] at hx
    | some ex =>
      rw [hox] at hx
      simp only [isDupErrOpt] at hx
      simp only [List.cons_append, insertSingles, hox, hx, if_true]
      exact ih d post e2 (fun y hy => hdup y (by simp [hy])) hd hnd

theorem insertSingles_total_ok {α : Type} (one : α → Option GoError)
    (hone : ∀ x : α, one x = none ∨ isDupErrOpt (one x) = true) :
    ∀ l : List α, ∃ r, insertSingles one l = .ok r := by
  intro l
  induction l with
  | nil => exact ⟨[], rfl⟩
  | cons d rest ih =>
    cases hod : one d with
    | none => exact ⟨rest, by simp [insertSingles, hod]⟩
    | some e =>
      have hd : isDupErrOpt (one d) = true := by
        rcases hone d with h | h
        · rw [h] at hod; cases hod
        · exact h
      rw [hod] at hd
      simp only [isDupErrOpt] at hd
      obtain ⟨r, hr⟩ := ih
      exact ⟨r, by simp [insertSingles, hod, hd, hr]⟩

/-- C5: for every non-empty document list, when the (retry-wrapped) batch
insert fails with a duplicate-key error, `RunRetryableInsert` switches to
one-at-a-time insertion, skipping each document whose single insert fails
with a duplicate-key error, until a single insert succeeds, and then resumes
batch insertion with exactly the documents after that first successfully
inserted one (second conjunct); a non-duplicate-key error — from the batch
(first conjunct) or from a single insert (third conjunct) — is returned
immediately; and when every batch and single result is success or
duplicate-key, i.e. every document is either inserted or a duplicate, the
whole call returns nil (fourth conjunct). -/
theorem c5_insert_dup_key_fallback (α : Type) (many : List α → Option GoError)
    (one : α → Option GoError) :
    (∀ (docs : List α) (e : GoError), docs ≠ [] → many docs = some e →
      isDuplicateKeyError e = false → runRetryableInsert many one docs = some e) ∧
    (∀ (pre : List α) (d : α) (post : List α) (e : GoError),
      many (pre ++ d :: post) = some e → isDuplicateKeyError e = true →
      (∀ x ∈ pre, isDupErrOpt (one x) = true) → one d = none →
      runRetryableInsert many one (pre ++ d :: post) = runRetryableInsert many one post) ∧
    (∀ (pre : List α) (d : α) (post : List α) (e e2 : GoError),
      many (pre ++ d :: post) = some e → isDuplicateKeyError e = true →
      (∀ x ∈ pre, isDupErrOpt (one x) = true) → one d = some e2 →
      isDuplicateKeyError e2 = false →
      runRetryableInsert many one (pre ++ d :: post) = some e2) ∧
    ((∀ l : List α, l ≠ [] → many l = none ∨ isDupErrOpt (many l) = true) →
      (∀ x : α, one x = none ∨ isDupErrOpt (one x) = true) →
      ∀ docs : List α, runRetryableInsert many one docs = none) := by
  refine ⟨?_, ?_, ?_, ?_⟩
  · intro docs e hne hmm hdup
    cases docs with
    | nil => exact absurd rfl hne
    | cons d rest => exact runRetryableInsert_cons_notdup many one d rest e hmm hdup
  · intro pre d post e hmm hdup hpre hd
    have hs := insertSingles_skip_to_success one pre d post hpre hd
    cases hsplit : pre ++ d :: post with
    | nil => simp at hsplit
    | cons y ys =>
      rw [hsplit] at hmm hs
      exact runRetryableInsert_cons_dup_ok many one y ys post e hmm hdup hs
  · intro pre d post e e2 hmm hdup hpre hd hnd
    have hs := insertSingles_skip_to_error one pre d post e2 hpre hd hnd
    cases hsplit : pre ++ d :: post with
    | nil => simp at hsplit
    | cons y ys =>
      rw [hsplit] at hmm hs
      exact runRetryableInsert_cons_dup_error many one y ys e e2 hmm hdup hs
  · intro hmany hone docs
    have main : ∀ (n : Nat) (l : List α), l.length ≤ n →
        runRetryableInsert many one l = none := by
      intro n
      induction n with
      | zero =>
        intro l hl
        have hnil : l = [] := by
          cases l with
          | nil => rfl
          | cons a b => simp at hl
        rw [hnil]
        exact runRetryableInsert_nil many one
      | succ n ih =>
        intro l hl
        cases l with
        | nil => exact runRetryableInsert_nil many one
        | cons d rest =>
          cases hmm : many (d :: rest) with
          | none => exact runRetryableInsert_cons_none many one d rest hmm
          | some e =>
            have hdup : isDuplicateKeyError e = true := by
              rcases hmany (d :: rest) (by simp) with h | h
              · rw [h] at hmm; cases hmm
              · rw [hmm] at h; simpa [isDupErrOpt] using h
            obtain ⟨r, hr⟩ := insertSingles_total_ok one hone (d :: rest)
            have hlen := insertSingles_cons_length one d rest r hr
            rw [runRetryableInsert_cons_dup_ok many one d rest r e hmm hdup hr]
            exact ih r (by simp only [List.length_cons] at hlen hl; omega)
    exact main docs.length docs (le_refl docs.length)

/-- C5 witness: on documents [1, 2, 3] whose batch insert reports a
duplicate key and whose document 1 is already present (single insert reports
duplicate key) while document 2 inserts cleanly, the call resumes batch
insertion with exactly [3]. -/
theorem c5_insert_dup_key_fallback_witness :
    runRetryableInsert
        (fun l => if l = [1, 2, 3] then some (.commandError 11000 "DuplicateKey" "dup" []) else none)
        (fun x => if x = 1 then some (.commandError 11000 "DuplicateKey" "dup" []) else none)
        ([1] ++ 2 :: [3]) =
      runRetryableInsert
        (fun l => if l = [1, 2, 3] then some (.commandError 11000 "DuplicateKey" "dup" []) else none)
        (fun x => if x = 1 then some (.commandError 11000 "DuplicateKey" "dup" []) else none)
        [3] :=
  (c5_insert_dup_key_fallback Nat
      (fun l => if l = [1, 2, 3] then some (.commandError 11000 "DuplicateKey" "dup" []) else none)
      (fun x => if x = 1 then some (.commandError 11000 "DuplicateKey" "dup" []) else none)).2.1
    [1] 2 [3] (.commandError 11000 "DuplicateKey" "dup" []) rfl rfl
    (by intro x hx; obtain rfl := List.mem_singleton.mp hx; rfl) rfl

end MongoToolsCommon
